import Mathlib

/-!
Shallow embedding of the multi-process proxy subsystem of pynrfjprog
(`src/pynrfjprog/MultiAPI.py`, with the error class `APIError` and the
error-code enumeration from `src/pynrfjprog/API.py`).

The proxy (`MultiAPI`) forwards each operation to a worker process: each
forwarding method enqueues a `_Command(name, *args)` on `CmdQueue` and blocks
in `_wait_for_completion` on `CmdAckQueue`; the worker loop `_runner` looks the
name up in a registry built by `inspect.getmembers(api, inspect.ismethod)`,
invokes it, and enqueues a `_CommandAck` carrying either the result or the
raised exception.  The queues are `multiprocessing.Queue`s, so every object
crossing them is pickled and unpickled; exceptions are pickled as
`(class, args)` and reconstructed by calling `class(*args)`, and the traceback
attached to an exception in the worker is not pickled.
-/

/-- A Python value of the fragment that the protocol claims need: `None`,
booleans, integers, strings, and `session`, a marker for the worker-owned
`API.API` instance (a live, unpicklable object). -/
inductive PyVal where
  | none
  | bool (b : Bool)
  | int (n : Int)
  | str (s : String)
  | session
  deriving DecidableEq, Repr

/-- Python `str()` on the value fragment, as used by `'{}'.format(x)`. -/
def pyStr (v : PyVal) : String :=
  match v with
  | PyVal.none => "None"
  | PyVal.bool b => if b then "True" else "False"
  | PyVal.int n => toString n
  | PyVal.str s => s
  | PyVal.session => "<pynrfjprog.API.API object>"

/-- The members of `NrfjprogdllErr` (API.py lines 54-77): pairs of value and
name, exactly as declared in the enum. -/
def nrfjprogdllErrMembers : List (Int × String) :=
  [(0, "SUCCESS"),
   (-1, "OUT_OF_MEMORY"),
   (-2, "INVALID_OPERATION"),
   (-3, "INVALID_PARAMETER"),
   (-4, "INVALID_DEVICE_FOR_OPERATION"),
   (-5, "WRONG_FAMILY_FOR_DEVICE"),
   (-10, "EMULATOR_NOT_CONNECTED"),
   (-11, "CANNOT_CONNECT"),
   (-12, "LOW_VOLTAGE"),
   (-13, "NO_EMULATOR_CONNECTED"),
   (-20, "NVMC_ERROR"),
   (-90, "NOT_AVAILABLE_BECAUSE_PROTECTION"),
   (-100, "JLINKARM_DLL_NOT_FOUND"),
   (-101, "JLINKARM_DLL_COULD_NOT_BE_OPENED"),
   (-102, "JLINKARM_DLL_ERROR"),
   (-103, "JLINKARM_DLL_TOO_OLD"),
   (-150, "NRFJPROG_SUB_DLL_NOT_FOUND"),
   (-151, "NRFJPROG_SUB_DLL_COULD_NOT_BE_OPENED"),
   (-255, "NOT_IMPLEMENTED_ERROR")]

/-- The message string built by `APIError.__init__` (API.py lines 151-163):
`err_code in [member.value for ...]` succeeds only for an integer that is one
of the enum values, in which case the name is appended; otherwise the bare
`str(err_code)` is formatted into the template. -/
def apiErrorStr (err_code : PyVal) : String :=
  match err_code with
  | PyVal.int n =>
      match nrfjprogdllErrMembers.find? (fun p => p.1 == n) with
      | some p =>
          "An error was reported by NRFJPROG DLL: " ++ toString n ++ " " ++ p.2 ++ "."
      | Option.none =>
          "An error was reported by NRFJPROG DLL: " ++ toString n ++ "."
  | v => "An error was reported by NRFJPROG DLL: " ++ pyStr v ++ "."

/-- An exception object, as far as the protocol observes it: either an
`APIError` (API.py lines 145-163), fully determined by the `err_code` passed to
its constructor, or a generic exception class whose constructor stores its one
string argument unchanged (`ValueError`, `RuntimeError`, `KeyError`, ...). -/
inductive PyExc where
  | apiError (err_code : PyVal)
  | generic (cls : String) (msg : String)
  deriving DecidableEq, Repr

/-- The class name of an exception (`type(e).__name__`). -/
def excClass (e : PyExc) : String :=
  match e with
  | PyExc.apiError _ => "APIError"
  | PyExc.generic cls _ => cls

/-- `e.args`: for `APIError`, `Exception.__init__(self, err_str)` stores the
formatted message as the single argument; a generic exception stores its
message. -/
def excArgs (e : PyExc) : List PyVal :=
  match e with
  | PyExc.apiError c => [PyVal.str (apiErrorStr c)]
  | PyExc.generic _ m => [PyVal.str m]

/-- `str(e)`: Python renders a single-argument exception as that argument. -/
def excMessage (e : PyExc) : String :=
  match excArgs e with
  | [PyVal.str s] => s
  | args => String.intercalate ", " (args.map pyStr)

/-- Reconstruction of an exception on unpickling: `BaseException` pickles as
`(class, args)` and unpickling calls `class(*args)`.  For `APIError` this
re-runs `APIError.__init__` with `err_code` bound to the transported argument
(the already-formatted message string). -/
def unpickleExc (cls : String) (args : List PyVal) : PyExc :=
  if cls = "APIError" then
    match args with
    | [v] => PyExc.apiError v
    | _ => PyExc.generic cls (String.intercalate ", " (args.map pyStr))
  else
    match args with
    | [PyVal.str s] => PyExc.generic cls s
    | _ => PyExc.generic cls (String.intercalate ", " (args.map pyStr))

/-- What an exception becomes after crossing a `multiprocessing.Queue`:
pickled as `(class, args)`, reconstructed by `class(*args)`. -/
def queueTransportExc (e : PyExc) : PyExc :=
  unpickleExc (excClass e) (excArgs e)

/-- An exception as raised inside the worker process: the object together with
the traceback the Python runtime attaches at the raise site.  The traceback is
process-local; it is never pickled. -/
structure Raised where
  exc : PyExc
  traceback : String
  deriving DecidableEq, Repr

/-- Shallow embedding of `_Command` (MultiAPI.py lines 66-69): the operation
name and its positional arguments, in order.  There are no other fields — in
particular no correlation id. -/
structure Command where
  cmd : String
  args : List PyVal
  deriving DecidableEq, Repr

/-- A `_CommandAck` (MultiAPI.py lines 72-75) as constructed inside the worker
(lines 318 and 320): either `exception=e` with the raised exception object
(which still carries its in-process traceback) or `result=res`; the other
field keeps its default `None`.  A result of Python `None` is `PyVal.none`. -/
structure CommandAckW where
  exception : Option Raised
  result : PyVal
  deriving DecidableEq, Repr

/-- A `_CommandAck` as received by `CmdAckQueue.get()` in the host process:
the same record after pickling, where an exception has been reduced to
`(class, args)` and reconstructed, its traceback lost. -/
structure CommandAck where
  exception : Option PyExc
  result : PyVal
  deriving DecidableEq, Repr

/-- The result of invoking one worker-side bound method: a value or a raised
exception. -/
abbrev OpResult := Except Raised PyVal

/-- The worker-side operation registry
`api_functions = dict(inspect.getmembers(api, inspect.ismethod))`
(MultiAPI.py line 311), as a partial map from name to bound callable. -/
abbrev ApiRegistry := String → Option (List PyVal → OpResult)

/-- `api_functions[cmd.cmd](*cmd.args)` (MultiAPI.py line 316): a missing key
raises `KeyError` — inside the `try` block, so it is caught like any other
error. -/
def invokeCommand (fns : ApiRegistry) (c : Command) : OpResult :=
  match fns c.cmd with
  | Option.none =>
      Except.error ⟨PyExc.generic "KeyError" c.cmd, "Traceback: KeyError at api_functions lookup"⟩
  | some f => f c.args

/-- One iteration of the worker loop body (MultiAPI.py lines 314-320): dequeue
a command, invoke it, and build the `_CommandAck` that is put on
`CmdAckQueue` — `_CommandAck(exception=e)` on any raised exception,
`_CommandAck(result=res)` otherwise.  No inspection or substitution of the
result value takes place. -/
def runnerStep (fns : ApiRegistry) (c : Command) : CommandAckW :=
  match invokeCommand fns c with
  | Except.error e => { exception := some e, result := PyVal.none }
  | Except.ok res => { exception := Option.none, result := res }

/-- The worker loop (`while True`, MultiAPI.py lines 313-320) run over a finite
prefix of its command stream: one ack per command, in order, the loop never
exiting early on an error. -/
def runnerLoop (fns : ApiRegistry) : List Command → List CommandAckW
  | [] => []
  | c :: cs => runnerStep fns c :: runnerLoop fns cs

/-- Pickling of a result value for queue transport: values of the fragment
cross unchanged, but the live session object cannot be pickled (the `put`
would fail in the queue feeder thread and no ack would ever arrive). -/
def transportVal (v : PyVal) : Option PyVal :=
  if v = PyVal.session then Option.none else some v

/-- The ack as received by the host's `CmdAckQueue.get()`: the exception, if
any, has crossed the pickle boundary (class and args preserved, traceback
dropped); a result that cannot be pickled means no ack arrives
(`Option.none`). -/
def transportAck (a : CommandAckW) : Option CommandAck :=
  match a.exception with
  | some r => some { exception := some (queueTransportExc r.exc), result := a.result }
  | Option.none =>
      match transportVal a.result with
      | some v => some { exception := Option.none, result := v }
      | Option.none => Option.none

/-- The outcome a host-side caller observes: a returned value or a raised
exception. -/
inductive CallOutcome where
  | returns (v : PyVal)
  | raises (e : PyExc)
  deriving DecidableEq, Repr

/-- `_wait_for_completion` (MultiAPI.py lines 297-303) applied to the ack it
dequeued: `if ack.exception is not None: raise ack.exception`, then
`if ack.result is not None: return ack.result`, else fall off the end
(Python's implicit `return None`). -/
def wait_for_completion (ack : CommandAck) : CallOutcome :=
  match ack.exception with
  | some e => CallOutcome.raises e
  | Option.none =>
      if ack.result ≠ PyVal.none then CallOutcome.returns ack.result
      else CallOutcome.returns PyVal.none

/-- One full forwarded call observed end to end: the worker executes the
command and the host runs `_wait_for_completion` on the transported ack;
`Option.none` is a call whose ack never arrives. -/
def forwardCall (fns : ApiRegistry) (c : Command) : Option CallOutcome :=
  (transportAck (runnerStep fns c)).map wait_for_completion

/-- The forwarding methods defined on class `MultiAPI` (MultiAPI.py lines
105-295), in source order.  Each method's body is
`self.CmdQueue.put(_Command(<its own name>, *args))` followed by
`return self._wait_for_completion()`, so this list is simultaneously the
proxy's invocable operation surface and the set of command strings it can
send. -/
def multiAPIMethodNames : List String :=
  ["dll_version", "open", "close", "enum_emu_snr", "is_connected_to_emu",
   "connect_to_emu_with_snr", "connect_to_emu_without_snr",
   "disconnect_from_emu", "recover", "is_connected_to_device",
   "connect_to_device", "readback_protect", "readback_status",
   "read_region_0_size_and_source", "debug_reset", "sys_reset", "pin_reset",
   "disable_bprot", "erase_all", "erase_page", "erase_uicr", "write_u32",
   "read_u32", "write", "read", "is_halted", "halt", "run", "go", "step",
   "is_ram_powered", "power_ram_all", "unpower_ram_section",
   "read_cpu_register", "write_cpu_register", "read_device_version",
   "read_debug_port_register", "write_debug_port_register",
   "read_access_port_register", "write_access_port_register",
   "rtt_set_control_block_address", "rtt_start",
   "rtt_is_control_block_found", "rtt_stop", "rtt_read", "rtt_write",
   "rtt_read_channel_count", "rtt_read_channel_info"]

/-- The command-name string literals placed into `_Command(...)` by the
forwarding methods of `MultiAPI` (MultiAPI.py lines 106-294), collected in
source order from the `put` calls. -/
def proxyCommandNames : List String :=
  ["dll_version", "open", "close", "enum_emu_snr", "is_connected_to_emu",
   "connect_to_emu_with_snr", "connect_to_emu_without_snr",
   "disconnect_from_emu", "recover", "is_connected_to_device",
   "connect_to_device", "readback_protect", "readback_status",
   "read_region_0_size_and_source", "debug_reset", "sys_reset", "pin_reset",
   "disable_bprot", "erase_all", "erase_page", "erase_uicr", "write_u32",
   "read_u32", "write", "read", "is_halted", "halt", "run", "go", "step",
   "is_ram_powered", "power_ram_all", "unpower_ram_section",
   "read_cpu_register", "write_cpu_register", "read_device_version",
   "read_debug_port_register", "write_debug_port_register",
   "read_access_port_register", "write_access_port_register",
   "rtt_set_control_block_address", "rtt_start",
   "rtt_is_control_block_found", "rtt_stop", "rtt_read", "rtt_write",
   "rtt_read_channel_count", "rtt_read_channel_info"]

/-- The names of all methods of class `API` in API.py (lines 175-1061):
the registry `dict(inspect.getmembers(api, inspect.ismethod))` built by the
worker (MultiAPI.py line 311) has exactly these keys, since `inspect.ismethod`
collects every bound method of the instance, public, private and dunder
alike. -/
def apiMethodNames : List String :=
  ["__init__", "dll_version", "open", "close", "enum_emu_snr",
   "is_connected_to_emu", "connect_to_emu_with_snr",
   "connect_to_emu_without_snr", "disconnect_from_emu", "recover",
   "is_connected_to_device", "connect_to_device", "readback_protect",
   "readback_status", "read_region_0_size_and_source", "debug_reset",
   "sys_reset", "pin_reset", "disable_bprot", "erase_all", "erase_page",
   "erase_uicr", "write_u32", "read_u32", "write", "read", "is_halted",
   "halt", "run", "go", "step", "is_ram_powered", "power_ram_all",
   "unpower_ram_section", "read_cpu_register", "write_cpu_register",
   "read_device_version", "read_debug_port_register",
   "write_debug_port_register", "read_access_port_register",
   "write_access_port_register", "rtt_set_control_block_address",
   "rtt_start", "rtt_is_control_block_found", "rtt_stop", "rtt_read",
   "rtt_write", "rtt_read_channel_count", "rtt_read_channel_info",
   "_generate_log_str_cb", "_is_u32", "_is_u8", "_is_bool", "_is_valid_buf",
   "_is_enum", "_decode_enum", "__enter__", "__exit__"]

/-- Host-side observable state of one `MultiAPI` instance: the contents of the
two `multiprocessing.Queue`s (front of each list is the next element
dequeued; `ackQueue` holds acks as the host would receive them) and the
liveness of the worker process (`self.runner.is_alive()`). -/
structure ProxyState where
  cmdQueue : List Command
  ackQueue : List CommandAck
  runnerAlive : Bool
  deriving DecidableEq, Repr

/-- What an invocation on the proxy object does from the caller's point of
view: return or raise, or block forever in `CmdAckQueue.get()`. -/
inductive InvokeOutcome where
  | outcome (o : CallOutcome)
  | blocked
  deriving DecidableEq, Repr

/-- The `AttributeError` Python raises when an attribute is looked up on a
`MultiAPI` instance that neither the instance nor the class defines. -/
def attributeError (name : String) : PyExc :=
  PyExc.generic "AttributeError" ("MultiAPI object has no attribute " ++ name)

/-- Invocation of an operation name on a `MultiAPI` instance.  `MultiAPI` is a
plain class with no `__getattr__`: a name in its forwarding surface runs the
method body — `CmdQueue.put(_Command(name, *args))` then
`_wait_for_completion()`, which blocks if no ack is available — and any other
operation name fails attribute lookup with `AttributeError` before any method
body runs, leaving both queues untouched.  (The private helpers
`_wait_for_completion`, `_runner`, `_api_setup` and the dunder methods are
class internals, not part of the invocable operation surface modelled here.) -/
def proxyInvoke (s : ProxyState) (name : String) (args : List PyVal) :
    InvokeOutcome × ProxyState :=
  if name ∈ multiAPIMethodNames then
    let s1 : ProxyState :=
      { cmdQueue := s.cmdQueue ++ [⟨name, args⟩], ackQueue := s.ackQueue,
        runnerAlive := s.runnerAlive }
    match s1.ackQueue with
    | [] => (InvokeOutcome.blocked, s1)
    | a :: rest =>
        (InvokeOutcome.outcome (wait_for_completion a),
         { cmdQueue := s1.cmdQueue, ackQueue := rest,
           runnerAlive := s1.runnerAlive })
  else
    (InvokeOutcome.outcome (CallOutcome.raises (attributeError name)), s)

/-- `self.runner.is_alive()` (used in `__del__`, MultiAPI.py line 338). -/
def is_alive (s : ProxyState) : Bool := s.runnerAlive

/-- `self.runner.terminate()` (MultiAPI.py lines 335 and 340), modelled at the
lifecycle level: the worker process is killed, so once the kill has taken
effect the liveness flag is false.  Killing an already-dead process is
harmless, and nothing else about the proxy object changes — in particular the
queues and the forwarding methods are left exactly as they were. -/
def terminate (s : ProxyState) : ProxyState :=
  { cmdQueue := s.cmdQueue, ackQueue := s.ackQueue, runnerAlive := false }

/-- A concrete freshly-constructed proxy state after its worker has been
terminated: both queues empty, worker dead. -/
def postTerminateState : ProxyState :=
  terminate { cmdQueue := [], ackQueue := [], runnerAlive := true }

/-- The primitive host-side actions a forwarding method body performs, in
order: `CmdQueue.put(...)` and the blocking `CmdAckQueue.get()`.  These two
are the only effects in any forwarding method body (e.g. `read_u32`,
MultiAPI.py lines 193-195); no synchronisation primitive appears. -/
inductive HostAction where
  | putCmd (c : Command)
  | getAck
  deriving DecidableEq, Repr

/-- The agents of the two-host-thread scenario: two host threads sharing one
`MultiAPI` instance, plus the worker process. -/
inductive Agent where
  | t1
  | t2
  | w
  deriving DecidableEq, Repr

/-- Global state of the two-thread scenario: the shared queues, each thread's
remaining actions, and the acks each thread has received (in order). -/
structure SysState where
  cmdQueue : List Command
  ackQueue : List CommandAck
  prog1 : List HostAction
  prog2 : List HostAction
  recv1 : List CommandAck
  recv2 : List CommandAck
  deriving DecidableEq, Repr

/-- One step of a host thread: `putCmd` enqueues and proceeds; `getAck`
dequeues the front ack if one is available and otherwise stays blocked. -/
def threadStep (prog : List HostAction) (recv : List CommandAck)
    (cq : List Command) (aq : List CommandAck) :
    List HostAction × List CommandAck × List Command × List CommandAck :=
  match prog with
  | [] => (prog, recv, cq, aq)
  | HostAction.putCmd c :: rest => (rest, recv, cq ++ [c], aq)
  | HostAction.getAck :: rest =>
      match aq with
      | [] => (prog, recv, cq, aq)
      | a :: aq1 => (rest, recv ++ [a], cq, aq1)

/-- One scheduled step of the whole system: a host thread takes one step, or
the worker dequeues the front command, executes it, and enqueues the
transported ack (if its result fails to pickle, no ack arrives). -/
def sysStep (fns : ApiRegistry) (ag : Agent) (s : SysState) : SysState :=
  match ag with
  | Agent.t1 =>
      match threadStep s.prog1 s.recv1 s.cmdQueue s.ackQueue with
      | (p, r, cq, aq) =>
          { cmdQueue := cq, ackQueue := aq, prog1 := p, prog2 := s.prog2,
            recv1 := r, recv2 := s.recv2 }
  | Agent.t2 =>
      match threadStep s.prog2 s.recv2 s.cmdQueue s.ackQueue with
      | (p, r, cq, aq) =>
          { cmdQueue := cq, ackQueue := aq, prog1 := s.prog1, prog2 := p,
            recv1 := s.recv1, recv2 := r }
  | Agent.w =>
      match s.cmdQueue with
      | [] => s
      | c :: rest =>
          match transportAck (runnerStep fns c) with
          | some a =>
              { cmdQueue := rest, ackQueue := s.ackQueue ++ [a],
                prog1 := s.prog1, prog2 := s.prog2,
                recv1 := s.recv1, recv2 := s.recv2 }
          | Option.none =>
              { cmdQueue := rest, ackQueue := s.ackQueue,
                prog1 := s.prog1, prog2 := s.prog2,
                recv1 := s.recv1, recv2 := s.recv2 }

/-- Run a schedule (a finite interleaving) from a state. -/
def runSchedule (fns : ApiRegistry) (sched : List Agent) (s : SysState) :
    SysState :=
  sched.foldl (fun st ag => sysStep fns ag st) s

/-- Initial state of the two-thread scenario: each thread is about to perform
one forwarded call, thread 1 the command `cA` and thread 2 the command `cB` —
each thread runs exactly the body of a forwarding method: one put, one
blocking get. -/
def twoCallInit (cA cB : Command) : SysState :=
  { cmdQueue := [], ackQueue := [],
    prog1 := [HostAction.putCmd cA, HostAction.getAck],
    prog2 := [HostAction.putCmd cB, HostAction.getAck],
    recv1 := [], recv2 := [] }

/-- Stub registry whose `connect_to_device` raises `APIError(-5)`, the standard
error path of every API method (`raise APIError(result)`, e.g. API.py line
386). -/
def stubApiErrorFns : ApiRegistry :=
  fun n =>
    if n = "connect_to_device" then
      some (fun _ =>
        Except.error ⟨PyExc.apiError (PyVal.int (-5)),
          "Traceback (most recent call last): in connect_to_device"⟩)
    else Option.none

/-- Stub registry whose `sys_reset` raises `RuntimeError` with message `boom`
from raise site A. -/
def stubRaiseTbA : ApiRegistry :=
  fun n =>
    if n = "sys_reset" then
      some (fun _ => Except.error ⟨PyExc.generic "RuntimeError" "boom", "Traceback A"⟩)
    else Option.none

/-- Stub registry whose `sys_reset` raises the same `RuntimeError` with message
`boom` but from a different raise site B. -/
def stubRaiseTbB : ApiRegistry :=
  fun n =>
    if n = "sys_reset" then
      some (fun _ => Except.error ⟨PyExc.generic "RuntimeError" "boom", "Traceback B"⟩)
    else Option.none

/-- Stub registry whose `read_u32` returns the integer 42. -/
def stub42Fns : ApiRegistry :=
  fun n =>
    if n = "read_u32" then some (fun _ => Except.ok (PyVal.int 42))
    else Option.none

/-- Stub registry whose `open` returns the worker-owned session object
itself. -/
def stubSessionFns : ApiRegistry :=
  fun n =>
    if n = "open" then some (fun _ => Except.ok PyVal.session)
    else Option.none

/-- C1: the code is at odds with the claim that a failing remote operation
surfaces with the same classification AND the same message.  The
classification survives, but `APIError` — the library's own error type — does
not: its constructor wraps its argument in a message template, and queue
transport re-runs that constructor on the already-formatted message
(`(class, args)` pickling), so the caller receives an `APIError` whose message
is the template applied twice.  Worker-side message:
`An error was reported by NRFJPROG DLL: -5 WRONG_FAMILY_FOR_DEVICE.`;
host-side message: the same string wrapped once more. -/
theorem apiError_message_rewrapped_across_boundary :
    excClass (PyExc.apiError (PyVal.int (-5))) = "APIError" ∧
    excMessage (PyExc.apiError (PyVal.int (-5))) =
      "An error was reported by NRFJPROG DLL: -5 WRONG_FAMILY_FOR_DEVICE." ∧
    forwardCall stubApiErrorFns ⟨"connect_to_device", []⟩ =
      some (CallOutcome.raises (PyExc.apiError
        (PyVal.str "An error was reported by NRFJPROG DLL: -5 WRONG_FAMILY_FOR_DEVICE."))) ∧
    excMessage (PyExc.apiError
        (PyVal.str "An error was reported by NRFJPROG DLL: -5 WRONG_FAMILY_FOR_DEVICE.")) =
      "An error was reported by NRFJPROG DLL: An error was reported by NRFJPROG DLL: -5 WRONG_FAMILY_FOR_DEVICE.." :=
  ⟨rfl, rfl, rfl, rfl⟩

/-- C5 (counterexample): the ack produced for a failing operation does not
carry any captured remote diagnostic trace — two executions that raise the
same exception from different raise sites (different tracebacks) produce
identical transported acks, so the record the host receives cannot carry the
remote trace. -/
theorem ack_independent_of_remote_traceback :
    transportAck (runnerStep stubRaiseTbA ⟨"sys_reset", []⟩) =
      transportAck (runnerStep stubRaiseTbB ⟨"sys_reset", []⟩) ∧
    (⟨PyExc.generic "RuntimeError" "boom", "Traceback A"⟩ : Raised).traceback ≠
      (⟨PyExc.generic "RuntimeError" "boom", "Traceback B"⟩ : Raised).traceback :=
  ⟨rfl, by decide⟩

/-- C5 (amended): any error raised while invoking the named operation is
caught — it never terminates the worker loop, which produces one ack and
resumes with the next command — and is converted into an ack carrying the
exception (classification and message); the transported record carries no
captured diagnostic trace. -/
theorem worker_loop_catches_and_resumes (fns : ApiRegistry) (c : Command)
    (cs : List Command) (r : Raised)
    (h : invokeCommand fns c = Except.error r) :
    runnerLoop fns (c :: cs) =
      { exception := some r, result := PyVal.none } :: runnerLoop fns cs ∧
    transportAck { exception := some r, result := PyVal.none } =
      some { exception := some (queueTransportExc r.exc), result := PyVal.none } := by
  constructor
  · simp [runnerLoop, runnerStep, h]
  · rfl

/-- Witness for C5's amended theorem at a concrete raising stub. -/
theorem worker_loop_catches_and_resumes_witness :
    invokeCommand stubRaiseTbA ⟨"sys_reset", []⟩ =
      Except.error ⟨PyExc.generic "RuntimeError" "boom", "Traceback A"⟩ ∧
    (runnerLoop stubRaiseTbA (⟨"sys_reset", []⟩ :: []) =
      { exception := some ⟨PyExc.generic "RuntimeError" "boom", "Traceback A"⟩,
        result := PyVal.none } :: runnerLoop stubRaiseTbA [] ∧
    transportAck { exception := some ⟨PyExc.generic "RuntimeError" "boom", "Traceback A"⟩,
                   result := PyVal.none } =
      some { exception := some (queueTransportExc (PyExc.generic "RuntimeError" "boom")),
             result := PyVal.none }) :=
  ⟨rfl, worker_loop_catches_and_resumes stubRaiseTbA ⟨"sys_reset", []⟩ []
    ⟨PyExc.generic "RuntimeError" "boom", "Traceback A"⟩ rfl⟩

/-- C6: a forwarded operation that succeeds in the worker with a transportable
value `v` returns exactly `v` to the host caller, with no exception raised —
including when `v` is Python `None`, which the host delivers as no-value. -/
theorem successful_result_returned_exactly (fns : ApiRegistry) (c : Command)
    (v : PyVal) (hok : invokeCommand fns c = Except.ok v)
    (hv : v ≠ PyVal.session) :
    forwardCall fns c = some (CallOutcome.returns v) := by
  unfold forwardCall runnerStep
  rw [hok]
  unfold transportAck transportVal
  simp only [if_neg hv]
  unfold wait_for_completion
  by_cases h : v = PyVal.none <;> simp [h]

/-- Witness for C6: a stub read-operation returning 42 yields exactly 42. -/
theorem successful_result_returned_exactly_witness :
    invokeCommand stub42Fns ⟨"read_u32", [PyVal.int 0]⟩ =
      Except.ok (PyVal.int 42) ∧
    PyVal.int 42 ≠ PyVal.session ∧
    forwardCall stub42Fns ⟨"read_u32", [PyVal.int 0]⟩ =
      some (CallOutcome.returns (PyVal.int 42)) :=
  ⟨rfl, by decide,
   successful_result_returned_exactly stub42Fns ⟨"read_u32", [PyVal.int 0]⟩
     (PyVal.int 42) rfl (by decide)⟩

/-- C8 (counterexample): when an operation returns the worker-owned session
object itself, the worker loop does NOT substitute no-value: the ack it builds
for transmission carries the session object as its result. -/
theorem session_result_not_filtered :
    runnerStep stubSessionFns ⟨"open", []⟩ =
      { exception := Option.none, result := PyVal.session } ∧
    PyVal.session ≠ PyVal.none :=
  ⟨rfl, by decide⟩

/-- C8 (amended): the worker loop performs no filtering of return values: for
every operation that succeeds with value `v` — including `v` being the session
object itself — the ack built for transmission carries exactly `v`. -/
theorem worker_transmits_result_unchanged (fns : ApiRegistry) (c : Command)
    (v : PyVal) (hok : invokeCommand fns c = Except.ok v) :
    runnerStep fns c = { exception := Option.none, result := v } := by
  unfold runnerStep
  rw [hok]

/-- Witness for C8's amended theorem at the session-returning stub. -/
theorem worker_transmits_result_unchanged_witness :
    invokeCommand stubSessionFns ⟨"open", []⟩ = Except.ok PyVal.session ∧
    runnerStep stubSessionFns ⟨"open", []⟩ =
      { exception := Option.none, result := PyVal.session } :=
  ⟨rfl, worker_transmits_result_unchanged stubSessionFns ⟨"open", []⟩
    PyVal.session rfl⟩

/-- C10: host-side result delivery distinguishes values from no-value by an
is-None test, not by truthiness: for every ack with no exception, the value
delivered to the caller is exactly the remote result — falsy values such as
`False`, `0` and the empty string included — and only a remote result of
`None` is delivered as no-value. -/
theorem result_delivery_tests_none_not_truthiness (ack : CommandAck)
    (h : ack.exception = Option.none) :
    wait_for_completion ack = CallOutcome.returns ack.result := by
  obtain ⟨exc, res⟩ := ack
  simp only at h
  subst h
  by_cases hr : res = PyVal.none
  · subst hr; rfl
  · simp [wait_for_completion, hr]

/-- Witness for C10: a remote result of `False` (falsy but not `None`) is
delivered unchanged. -/
theorem result_delivery_tests_none_not_truthiness_witness :
    ({ exception := Option.none, result := PyVal.bool false } : CommandAck).exception =
      Option.none ∧
    wait_for_completion { exception := Option.none, result := PyVal.bool false } =
      CallOutcome.returns (PyVal.bool false) :=
  ⟨rfl, result_delivery_tests_none_not_truthiness
    { exception := Option.none, result := PyVal.bool false } rfl⟩

/-- Stub registry for the two-thread scenario: `read_u32` returns 1,
`read_device_version` returns 2. -/
def stubPairFns : ApiRegistry :=
  fun n =>
    if n = "read_u32" then some (fun _ => Except.ok (PyVal.int 1))
    else if n = "read_device_version" then some (fun _ => Except.ok (PyVal.int 2))
    else Option.none

/-- C2 (counterexample): no mutual exclusion guards a forwarded call, so two
host threads with overlapping calls on one proxy instance can observe a
mismatched response.  Concretely: thread 1 calls `read_u32` (result 1) and
thread 2 calls `read_device_version` (result 2); under the interleaving
put1, put2, worker, worker, get2, get1 — possible because nothing is held
between a thread's put and its get — thread 2 receives the ack with result 1,
while its own request's result is 2. -/
theorem overlapping_calls_mismatched_response :
    (runSchedule stubPairFns
        [Agent.t1, Agent.t2, Agent.w, Agent.w, Agent.t2, Agent.t1]
        (twoCallInit ⟨"read_u32", [PyVal.int 0]⟩ ⟨"read_device_version", []⟩)).recv2 =
      [{ exception := Option.none, result := PyVal.int 1 }] ∧
    transportAck (runnerStep stubPairFns ⟨"read_device_version", []⟩) =
      some { exception := Option.none, result := PyVal.int 2 } ∧
    PyVal.int 1 ≠ PyVal.int 2 :=
  ⟨rfl, rfl, by decide⟩

/-- C2 (amended): the forwarding methods acquire no mutual-exclusion
primitive — each performs only an enqueue and a blocking dequeue — so
matching of responses to requests holds only for non-overlapping calls: when
the two threads' calls do not interleave, each receives exactly the ack of its
own command. -/
theorem nonoverlapping_calls_receive_own_results (fns : ApiRegistry)
    (cA cB : Command) (aA aB : CommandAck)
    (hA : transportAck (runnerStep fns cA) = some aA)
    (hB : transportAck (runnerStep fns cB) = some aB) :
    (runSchedule fns [Agent.t1, Agent.w, Agent.t1, Agent.t2, Agent.w, Agent.t2]
        (twoCallInit cA cB)).recv1 = [aA] ∧
    (runSchedule fns [Agent.t1, Agent.w, Agent.t1, Agent.t2, Agent.w, Agent.t2]
        (twoCallInit cA cB)).recv2 = [aB] := by
  constructor <;>
    simp [runSchedule, List.foldl, sysStep, threadStep, twoCallInit, hA, hB]

/-- Witness for C2's amended theorem with the concrete stub registry. -/
theorem nonoverlapping_calls_receive_own_results_witness :
    transportAck (runnerStep stubPairFns ⟨"read_u32", [PyVal.int 0]⟩) =
      some { exception := Option.none, result := PyVal.int 1 } ∧
    transportAck (runnerStep stubPairFns ⟨"read_device_version", []⟩) =
      some { exception := Option.none, result := PyVal.int 2 } ∧
    ((runSchedule stubPairFns
        [Agent.t1, Agent.w, Agent.t1, Agent.t2, Agent.w, Agent.t2]
        (twoCallInit ⟨"read_u32", [PyVal.int 0]⟩ ⟨"read_device_version", []⟩)).recv1 =
      [{ exception := Option.none, result := PyVal.int 1 }] ∧
    (runSchedule stubPairFns
        [Agent.t1, Agent.w, Agent.t1, Agent.t2, Agent.w, Agent.t2]
        (twoCallInit ⟨"read_u32", [PyVal.int 0]⟩ ⟨"read_device_version", []⟩)).recv2 =
      [{ exception := Option.none, result := PyVal.int 2 }]) :=
  ⟨rfl, rfl,
   nonoverlapping_calls_receive_own_results stubPairFns
     ⟨"read_u32", [PyVal.int 0]⟩ ⟨"read_device_version", []⟩
     { exception := Option.none, result := PyVal.int 1 }
     { exception := Option.none, result := PyVal.int 2 } rfl rfl⟩

/-- C3: invoking an operation name outside the proxy's known operation surface
fails immediately — Python attribute lookup raises `AttributeError`, the
code's realization of the spec's `UnknownOperationError` classification — and
the proxy state is returned unchanged: nothing is put on either queue, zero
transport interaction. -/
theorem unknown_operation_raises_without_transport (s : ProxyState)
    (name : String) (args : List PyVal) (h : name ∉ multiAPIMethodNames) :
    proxyInvoke s name args =
      (InvokeOutcome.outcome (CallOutcome.raises (attributeError name)), s) := by
  unfold proxyInvoke
  rw [if_neg h]

/-- Witness for C3 at a concrete unknown name. -/
theorem unknown_operation_raises_without_transport_witness :
    "program_hex" ∉ multiAPIMethodNames ∧
    proxyInvoke { cmdQueue := [], ackQueue := [], runnerAlive := true }
        "program_hex" [] =
      (InvokeOutcome.outcome (CallOutcome.raises (attributeError "program_hex")),
       { cmdQueue := [], ackQueue := [], runnerAlive := true }) :=
  ⟨by decide,
   unknown_operation_raises_without_transport
     { cmdQueue := [], ackQueue := [], runnerAlive := true }
     "program_hex" [] (by decide)⟩

/-- C4 (counterexample): after the worker has been terminated, a further
forwarded call does not raise any error at all — with the worker gone and the
ack queue empty it enqueues its command on the channel (transport IS touched)
and then blocks forever in `CmdAckQueue.get()`. -/
theorem post_terminate_call_blocks :
    is_alive postTerminateState = false ∧
    (proxyInvoke postTerminateState "read_u32" [PyVal.int 0]).1 =
      InvokeOutcome.blocked ∧
    (proxyInvoke postTerminateState "read_u32" [PyVal.int 0]).2.cmdQueue =
      [⟨"read_u32", [PyVal.int 0]⟩] :=
  ⟨rfl, by decide, by decide⟩

/-- C4 (amended): after termination, `is_alive()` is false and terminating
again is a no-op; but a further forwarded operation does not raise
`UnavailableError` — it places its command on the channel and blocks
indefinitely, since no ack will ever arrive. -/
theorem terminate_lifecycle_behavior (s : ProxyState) (name : String)
    (args : List PyVal) (hname : name ∈ multiAPIMethodNames)
    (hq : s.ackQueue = []) :
    is_alive (terminate s) = false ∧
    terminate (terminate s) = terminate s ∧
    (proxyInvoke (terminate s) name args).1 = InvokeOutcome.blocked ∧
    (proxyInvoke (terminate s) name args).2.cmdQueue =
      s.cmdQueue ++ [⟨name, args⟩] := by
  refine ⟨rfl, rfl, ?_, ?_⟩ <;>
    simp [proxyInvoke, terminate, hname, hq]

/-- Witness for C4's amended theorem on a fresh terminated instance. -/
theorem terminate_lifecycle_behavior_witness :
    "read_u32" ∈ multiAPIMethodNames ∧
    ({ cmdQueue := [], ackQueue := [], runnerAlive := true } : ProxyState).ackQueue = [] ∧
    (is_alive (terminate { cmdQueue := [], ackQueue := [], runnerAlive := true }) = false ∧
     terminate (terminate { cmdQueue := [], ackQueue := [], runnerAlive := true }) =
       terminate { cmdQueue := [], ackQueue := [], runnerAlive := true } ∧
     (proxyInvoke (terminate { cmdQueue := [], ackQueue := [], runnerAlive := true })
         "read_u32" [PyVal.int 0]).1 = InvokeOutcome.blocked ∧
     (proxyInvoke (terminate { cmdQueue := [], ackQueue := [], runnerAlive := true })
         "read_u32" [PyVal.int 0]).2.cmdQueue = [] ++ [⟨"read_u32", [PyVal.int 0]⟩]) :=
  ⟨by decide, rfl,
   terminate_lifecycle_behavior
     { cmdQueue := [], ackQueue := [], runnerAlive := true }
     "read_u32" [PyVal.int 0] (by decide) rfl⟩

/-- C7: a forwarded call is fully synchronous with strict request/response
alternation: it appends exactly one envelope — carrying the operation name and
its arguments unchanged and in order — to the command queue, blocks exactly
when no ack is available, consumes exactly the front ack when one is, and the
envelope type carries no correlation id (an envelope is fully determined by
name and arguments). -/
theorem single_envelope_strict_alternation (s : ProxyState) (name : String)
    (args : List PyVal) (hname : name ∈ multiAPIMethodNames) :
    (proxyInvoke s name args).2.cmdQueue = s.cmdQueue ++ [⟨name, args⟩] ∧
    ((proxyInvoke s name args).1 = InvokeOutcome.blocked ↔ s.ackQueue = []) ∧
    (∀ a rest, s.ackQueue = a :: rest →
      proxyInvoke s name args =
        (InvokeOutcome.outcome (wait_for_completion a),
         { cmdQueue := s.cmdQueue ++ [⟨name, args⟩], ackQueue := rest,
           runnerAlive := s.runnerAlive })) ∧
    (∀ ca cb : Command, ca.cmd = cb.cmd → ca.args = cb.args → ca = cb) := by
  obtain ⟨cq, aq, al⟩ := s
  refine ⟨?_, ?_, ?_, ?_⟩
  · cases aq <;> simp [proxyInvoke, hname]
  · cases aq <;> simp [proxyInvoke, hname]
  · intro a rest hrest
    simp only at hrest
    subst hrest
    simp [proxyInvoke, hname]
  · intro ca cb h1 h2
    cases ca
    cases cb
    simp_all

/-- Witness for C7 with a nonempty ack queue. -/
theorem single_envelope_strict_alternation_witness :
    "read_u32" ∈ multiAPIMethodNames ∧
    ((proxyInvoke
        { cmdQueue := [], ackQueue := [{ exception := Option.none, result := PyVal.int 7 }],
          runnerAlive := true } "read_u32" [PyVal.int 4]).2.cmdQueue =
      [] ++ [⟨"read_u32", [PyVal.int 4]⟩] ∧
    ((proxyInvoke
        { cmdQueue := [], ackQueue := [{ exception := Option.none, result := PyVal.int 7 }],
          runnerAlive := true } "read_u32" [PyVal.int 4]).1 = InvokeOutcome.blocked ↔
      ({ cmdQueue := [], ackQueue := [{ exception := Option.none, result := PyVal.int 7 }],
         runnerAlive := true } : ProxyState).ackQueue = []) ∧
    (∀ a rest,
      ({ cmdQueue := [], ackQueue := [{ exception := Option.none, result := PyVal.int 7 }],
         runnerAlive := true } : ProxyState).ackQueue = a :: rest →
      proxyInvoke
        { cmdQueue := [], ackQueue := [{ exception := Option.none, result := PyVal.int 7 }],
          runnerAlive := true } "read_u32" [PyVal.int 4] =
        (InvokeOutcome.outcome (wait_for_completion a),
         { cmdQueue := [] ++ [⟨"read_u32", [PyVal.int 4]⟩], ackQueue := rest,
           runnerAlive := true })) ∧
    (∀ ca cb : Command, ca.cmd = cb.cmd → ca.args = cb.args → ca = cb)) :=
  ⟨by decide,
   single_envelope_strict_alternation
     { cmdQueue := [], ackQueue := [{ exception := Option.none, result := PyVal.int 7 }],
       runnerAlive := true } "read_u32" [PyVal.int 4] (by decide)⟩

/-- A total stub registry: every name is bound (to an operation returning
`None`). -/
def totalStubRegistry : ApiRegistry :=
  fun _ => some (fun _ => Except.ok PyVal.none)

/-- C9: every command name any forwarding method of the proxy can place in an
envelope is a method name of the Device Control API class, so a worker
registry containing a binding for every API method — as
`dict(inspect.getmembers(api, inspect.ismethod))` does — resolves every
proxy-issued command: the unknown-operation branch is unreachable for
proxy-issued commands. -/
theorem proxy_commands_always_in_registry (fns : ApiRegistry)
    (hdom : ∀ n, n ∈ apiMethodNames → (fns n).isSome)
    (name : String) (hname : name ∈ proxyCommandNames) :
    (fns name).isSome := by
  apply hdom
  have hsub : ∀ m ∈ proxyCommandNames, m ∈ apiMethodNames := by decide
  exact hsub name hname

/-- Witness for C9 at a total registry and a concrete command name. -/
theorem proxy_commands_always_in_registry_witness :
    (∀ n, n ∈ apiMethodNames → (totalStubRegistry n).isSome) ∧
    "rtt_read" ∈ proxyCommandNames ∧
    (totalStubRegistry "rtt_read").isSome :=
  ⟨fun _ _ => rfl, by decide,
   proxy_commands_always_in_registry totalStubRegistry (fun _ _ => rfl)
     "rtt_read" (by decide)⟩
